import Mathlib

/-!
Verification of `pkg/git/service.go` from soft-serve: a shallow embedding of
the git daemon service dispatcher and the process-backed service handler
(`gitServiceHandler`), together with theorems about argument construction,
environment merging, pipe setup, error classification, stream-copy logging
and the concurrency skeleton.

Effectful operations (pipe creation, process start, process wait, stream
copies) are abstracted by a `World` oracle that records the outcome each
operation would produce; the handler is then a pure function of the oracle,
mirroring the Go control flow statement by statement.
-/

namespace SoftServe

/-- Go `Service` is a string type (`type Service string`). -/
abbrev Service := String

/-- `UploadPackService` is the upload-pack service. -/
def UploadPackService : Service := "git-upload-pack"

/-- `UploadArchiveService` is the upload-archive service. -/
def UploadArchiveService : Service := "git-upload-archive"

/-- `ReceivePackService` is the receive-pack service. -/
def ReceivePackService : Service := "git-receive-pack"

/-- `LFSTransferService` is the LFS transfer service. -/
def LFSTransferService : Service := "git-lfs-transfer"

/-- `LFSAuthenticateService` is the LFS authenticate service. -/
def LFSAuthenticateService : Service := "git-lfs-authenticate"

/-- `Service.Name` returns `strings.TrimPrefix(s.String(), "git-")`: the
string with the leading `"git-"` removed when present, the string itself
otherwise. -/
def Service.Name (s : Service) : String :=
  if s.take 4 = "git-" then s.drop 4 else s

/-- A Go `error` value, as the handler observes it: `notExist` stands for any
error `e` with `errors.Is(e, os.ErrNotExist)`; `exit d st` stands for an
`*exec.ExitError` whose `Error()` string is `d` and whose captured `Stderr`
bytes read as `st` (an `ExitError` never wraps `os.ErrNotExist`);
`invalidRepo` is the package sentinel `ErrInvalidRepo`. Modelled from the
spec: `ErrInvalidRepo` is declared elsewhere in the package (not in this
file); the spec calls it the distinguished invalid-repository condition, so
it is a distinguished constructor here. `other` covers every remaining error,
carrying its `Error()` string. -/
inductive GoError where
  | notExist (msg : String) : GoError
  | exit (desc : String) (capturedStderr : String) : GoError
  | invalidRepo : GoError
  | other (msg : String) : GoError
deriving DecidableEq, Repr

/-- `errors.Is(e, os.ErrNotExist)` for the modelled error values. -/
def GoError.isNotExist : GoError → Bool
  | .notExist _ => true
  | _ => false

/-- `errors.As(e, &exitErr)`: the `*exec.ExitError` data when the error is
one, as `(Error() string, captured stderr bytes)`. -/
def GoError.asExitError : GoError → Option (String × String)
  | .exit d st => some (d, st)
  | _ => none

/-- The `Error()` string of a modelled error (`%s`/`%v` formatting). -/
def GoError.errorString : GoError → String
  | .notExist m => m
  | .exit d _ => d
  | .invalidRepo => "invalid repo"
  | .other m => m

/-- `%v` of a possibly-nil error value. -/
def errFormat : Option GoError → String
  | some e => e.errorString
  | none => "<nil>"

/-- The relevant fields of an `exec.Cmd` as configured by the handler:
`Args` (including argv0), `Dir` and `Env`. -/
structure Cmd where
  args : List String
  dir : String
  env : List String
deriving DecidableEq, Repr

/-- `ServiceCommand` is used to run a git service command. Streams are
modelled by their presence (`io.Reader`/`io.Writer` being non-nil); `CmdFunc`
is the optional pre-start hook mutating the `exec.Cmd` configuration. -/
structure ServiceCommand where
  Stdin : Option Unit
  Stdout : Option Unit
  Stderr : Option Unit
  Dir : String
  Env : List String
  Args : List String
  CmdFunc : Option (Cmd → Cmd)

/-- The fixed configuration flags passed ahead of the subcommand name
(source lines 63-71): enable partial clones, enable push options, disable
the LFS filters. -/
def safetyFlags : List String :=
  ["-c", "uploadpack.allowFilter=true",
   "-c", "receive.advertisePushOptions=true",
   "-c", "filter.lfs.required=", "-c", "filter.lfs.smudge=", "-c", "filter.lfs.clean="]

/-- Construction of the child `exec.Cmd` (source lines 61-81, before the
`CmdFunc` hook): `exec.CommandContext(ctx, "git")` yields `Args = ["git"]`;
then the fixed flags and the short service name are appended, then the
caller's extra `Args` when non-empty, then the literal `"."`; `Env` is
`os.Environ()` (the `ambientEnv` argument) with the caller's `Env` appended
when non-empty. -/
def mkGitCmd (ambientEnv : List String) (svc : Service) (scmd : ServiceCommand) : Cmd :=
  let cmd : Cmd := { args := ["git"], dir := scmd.Dir, env := [] }
  let cmd := { cmd with args := cmd.args ++ (safetyFlags ++ [svc.Name]) }
  let cmd := if scmd.Args.length > 0 then { cmd with args := cmd.args ++ scmd.Args } else cmd
  let cmd := { cmd with args := cmd.args ++ ["."] }
  let cmd := { cmd with env := ambientEnv }
  let cmd := if scmd.Env.length > 0 then { cmd with env := cmd.env ++ scmd.Env } else cmd
  cmd

/-- A stream of the child process. -/
inductive StreamKind where
  | stdin | stdout | stderr
deriving DecidableEq, Repr

/-- Main-thread events of the handler's concurrency skeleton, in program
order: `spawn st joined closesPipe` is a `go func(){...}` launched to copy
stream `st` (`joined` = registered in the `sync.WaitGroup` via
`wg.Add(1)`/`defer wg.Done()`, so the later `wgWait` blocks until it
finishes; `closesPipe` = the task defers closing its process pipe when its
copy completes or fails); `wgWait` is `wg.Wait()`; `procWait` is
`cmd.Wait()`. -/
inductive Event where
  | spawn (stream : StreamKind) (joined : Bool) (closesPipe : Bool) : Event
  | wgWait : Event
  | procWait : Event
deriving DecidableEq, Repr

/-- The oracle for one invocation: the ambient environment (`os.Environ()`)
and the outcome of each effectful operation, `none` meaning success /
nil error. -/
structure World where
  ambientEnv : List String
  stdinPipeErr : Option GoError
  stdoutPipeErr : Option GoError
  stderrPipeErr : Option GoError
  startErr : Option GoError
  waitErr : Option GoError
  stdinCopyErr : Option GoError
  stdoutCopyErr : Option GoError
  stderrCopyErr : Option GoError

/-- Everything observable about one run of `gitServiceHandler`: the returned
error (`none` = nil), which pipes were opened (in program order), whether
`cmd.Start` was ever invoked, the main-thread concurrency trace, the
messages passed to `log.Errorf`, the child command configuration after the
`CmdFunc` hook, and the value of the `scmd` descriptor when the function
returns. -/
structure HandlerOut where
  result : Option GoError
  pipes : List StreamKind
  startAttempted : Bool
  trace : List Event
  logs : List String
  cmd : Cmd
  scmdAfter : ServiceCommand

/-- `gitServiceHandler` (source lines 60-174), statement by statement.
Pipes are created only for streams the caller supplied, failing fast before
`cmd.Start`. After a successful start, the stdin copier is spawned detached
(never waited on, closes the stdin pipe when done), the stdout and stderr
copiers are registered in the WaitGroup, `wg.Wait()` joins them, then
`cmd.Wait()` runs and its error is classified. `errVar` mirrors the outer
`err` variable at the time the copy goroutines test it: every executed pipe
creation on this path succeeded and stored nil, and `cmd.Start`'s error is
bound to a fresh shadowed `err`, so the outer one is nil. The stderr
goroutine's guard in the source reads `if _, erro := io.Copy(...); err != nil`,
testing that outer `err` rather than its own `erro`. -/
def gitServiceHandler (w : World) (svc : Service) (scmd : ServiceCommand) : HandlerOut :=
  let cmd := mkGitCmd w.ambientEnv svc scmd
  let cmd := match scmd.CmdFunc with
    | some f => f cmd
    | none => cmd
  match scmd.Stdin, w.stdinPipeErr with
  | some _, some e =>
      { result := some e, pipes := [], startAttempted := false,
        trace := [], logs := [], cmd := cmd, scmdAfter := scmd }
  | _, _ =>
    let pipes := if scmd.Stdin.isSome then [StreamKind.stdin] else []
    match scmd.Stdout, w.stdoutPipeErr with
    | some _, some e =>
        { result := some e, pipes := pipes, startAttempted := false,
          trace := [], logs := [], cmd := cmd, scmdAfter := scmd }
    | _, _ =>
      let pipes := pipes ++ (if scmd.Stdout.isSome then [StreamKind.stdout] else [])
      match scmd.Stderr, w.stderrPipeErr with
      | some _, some e =>
          { result := some e, pipes := pipes, startAttempted := false,
            trace := [], logs := [], cmd := cmd, scmdAfter := scmd }
      | _, _ =>
        let pipes := pipes ++ (if scmd.Stderr.isSome then [StreamKind.stderr] else [])
        let errVar : Option GoError := none
        match w.startErr with
        | some e =>
            { result := some (if e.isNotExist then GoError.invalidRepo else e),
              pipes := pipes, startAttempted := true,
              trace := [], logs := [], cmd := cmd, scmdAfter := scmd }
        | none =>
          let spawns :=
            (if scmd.Stdin.isSome then [Event.spawn .stdin false true] else []) ++
            (if scmd.Stdout.isSome then [Event.spawn .stdout true false] else []) ++
            (if scmd.Stderr.isSome then [Event.spawn .stderr true false] else [])
          let logs :=
            (match scmd.Stdin, w.stdinCopyErr with
             | some _, some e =>
                ["gitServiceHandler: failed to copy stdin: " ++ e.errorString]
             | _, _ => []) ++
            (match scmd.Stdout, w.stdoutCopyErr with
             | some _, some e =>
                ["gitServiceHandler: failed to copy stdout: " ++ e.errorString]
             | _, _ => []) ++
            (if scmd.Stderr.isSome && errVar.isSome then
                ["gitServiceHandler: failed to copy stderr: " ++ errFormat w.stderrCopyErr]
             else [])
          let result :=
            match w.waitErr with
            | none => none
            | some e =>
              if e.isNotExist then some GoError.invalidRepo
              else
                match e.asExitError with
                | some (d, st) =>
                    if st.length > 0 then some (.other (d ++ ": " ++ st)) else some e
                | none => some e
          { result := result, pipes := pipes, startAttempted := true,
            trace := spawns ++ [Event.wgWait, Event.procWait],
            logs := logs, cmd := cmd, scmdAfter := scmd }

/-- Per-stream pipe-phase success: the stream was either not requested or
its pipe creation succeeded. -/
def stdinOk (w : World) (scmd : ServiceCommand) : Bool :=
  !scmd.Stdin.isSome || w.stdinPipeErr.isNone

/-- Per-stream pipe-phase success for stdout. -/
def stdoutOk (w : World) (scmd : ServiceCommand) : Bool :=
  !scmd.Stdout.isSome || w.stdoutPipeErr.isNone

/-- Per-stream pipe-phase success for stderr. -/
def stderrOk (w : World) (scmd : ServiceCommand) : Bool :=
  !scmd.Stderr.isSome || w.stderrPipeErr.isNone

/-- All requested pipe creations succeed. -/
def pipesOk (w : World) (scmd : ServiceCommand) : Bool :=
  stdinOk w scmd && stdoutOk w scmd && stderrOk w scmd

/-- Whether the caller supplied a source/sink for the given stream. -/
def streamRequested (scmd : ServiceCommand) : StreamKind → Bool
  | .stdin => scmd.Stdin.isSome
  | .stdout => scmd.Stdout.isSome
  | .stderr => scmd.Stderr.isSome

/-- The dispatch decision of `Service.Handler` (source lines 43-54): which
strategy the switch selects for a given service string. -/
inductive HandlerAction where
  | git (svc : Service) : HandlerAction
  | lfsTransfer : HandlerAction
  | lfsAuthenticate : HandlerAction
  | unsupported (msg : String) : HandlerAction
deriving DecidableEq, Repr

/-- The switch in `Service.Handler`: the three git services go to
`gitServiceHandler`, the two LFS services to the external handlers, anything
else to `fmt.Errorf("unsupported service: %s", s)`. -/
def Service.handlerAction (s : Service) : HandlerAction :=
  if s = UploadPackService ∨ s = UploadArchiveService ∨ s = ReceivePackService then
    .git s
  else if s = LFSTransferService then .lfsTransfer
  else if s = LFSAuthenticateService then .lfsAuthenticate
  else .unsupported ("unsupported service: " ++ s)

/-- The outcome of `Service.Handler`: the returned error and whether a child
process start was attempted by this engine. -/
structure DispatchOut where
  result : Option GoError
  startAttempted : Bool
deriving DecidableEq, Repr

/-- `Service.Handler`, parameterized by the external `LFSTransfer` and
`LFSAuthenticate` handlers. Modelled from the spec: those two handlers live
outside this file and are externally supplied collaborators satisfying the
same request-descriptor contract; they are opaque functions here and start
no process through this engine. -/
def Service.Handler (lfsT lfsA : ServiceCommand → Option GoError)
    (w : World) (s : Service) (scmd : ServiceCommand) : DispatchOut :=
  match s.handlerAction with
  | .git svc =>
      let o := gitServiceHandler w svc scmd
      { result := o.result, startAttempted := o.startAttempted }
  | .lfsTransfer => { result := lfsT scmd, startAttempted := false }
  | .lfsAuthenticate => { result := lfsA scmd, startAttempted := false }
  | .unsupported m => { result := some (.other m), startAttempted := false }

/-- `UploadPack` runs the git upload-pack protocol (source lines 190-192). -/
def UploadPack (w : World) (scmd : ServiceCommand) : HandlerOut :=
  gitServiceHandler w UploadPackService scmd

/-- `UploadArchive` runs the git upload-archive protocol (source lines 195-197). -/
def UploadArchive (w : World) (scmd : ServiceCommand) : HandlerOut :=
  gitServiceHandler w UploadArchiveService scmd

/-- `ReceivePack` runs the git receive-pack protocol (source lines 200-202). -/
def ReceivePack (w : World) (scmd : ServiceCommand) : HandlerOut :=
  gitServiceHandler w ReceivePackService scmd

/-- The key of an environment entry `KEY=value`: the part before the first
`=`. -/
def envKey (entry : String) : String :=
  entry.takeWhile (fun c => c ≠ '=')

/-- Lookup in an environment list under standard environment-merge
semantics: the last entry with the given key wins. -/
def envLookup : List String → String → Option String
  | [], _ => none
  | e :: rest, k =>
    match envLookup rest k with
    | some v => some v
    | none => if envKey e = k then some e else none

/-! ### Run characterizations -/

/-- The pipes a run with successful pipe setup opens, in program order. -/
def pipeList (scmd : ServiceCommand) : List StreamKind :=
  (if scmd.Stdin.isSome then [StreamKind.stdin] else []) ++
  (if scmd.Stdout.isSome then [StreamKind.stdout] else []) ++
  (if scmd.Stderr.isSome then [StreamKind.stderr] else [])

/-- The copy tasks a started run spawns, in program order. -/
def spawnList (scmd : ServiceCommand) : List Event :=
  (if scmd.Stdin.isSome then [Event.spawn .stdin false true] else []) ++
  (if scmd.Stdout.isSome then [Event.spawn .stdout true false] else []) ++
  (if scmd.Stderr.isSome then [Event.spawn .stderr true false] else [])

/-- Classification of the `cmd.Wait()` outcome (source lines 161-173). -/
def classifyWait : Option GoError → Option GoError
  | none => none
  | some e =>
    if e.isNotExist then some GoError.invalidRepo
    else
      match e.asExitError with
      | some (d, st) =>
          if st.length > 0 then some (.other (d ++ ": " ++ st)) else some e
      | none => some e

/-- The `log.Errorf` messages a started run emits. -/
def copyLogs (w : World) (scmd : ServiceCommand) : List String :=
  (match scmd.Stdin, w.stdinCopyErr with
   | some _, some e => ["gitServiceHandler: failed to copy stdin: " ++ e.errorString]
   | _, _ => []) ++
  (match scmd.Stdout, w.stdoutCopyErr with
   | some _, some e => ["gitServiceHandler: failed to copy stdout: " ++ e.errorString]
   | _, _ => [])

/-- A concrete oracle where every operation succeeds, for instantiating the
theorems at specific runs. -/
def sampleWorld : World :=
  { ambientEnv := ["HOME=/root", "PATH=/usr/bin"],
    stdinPipeErr := none, stdoutPipeErr := none, stderrPipeErr := none,
    startErr := none, waitErr := none,
    stdinCopyErr := none, stdoutCopyErr := none, stderrCopyErr := none }

/-- A concrete request descriptor with all three streams supplied. -/
def sampleCmd : ServiceCommand :=
  { Stdin := some (), Stdout := some (), Stderr := some (),
    Dir := "/srv/repo.git", Env := ["SOFT_SERVE_REPO=repo"], Args := ["--strict"],
    CmdFunc := none }

lemma gitServiceHandler_run (w : World) (svc : Service) (scmd : ServiceCommand)
    (hp : pipesOk w scmd = true) (hs : w.startErr = none) :
    (gitServiceHandler w svc scmd).result = classifyWait w.waitErr ∧
    (gitServiceHandler w svc scmd).pipes = pipeList scmd ∧
    (gitServiceHandler w svc scmd).startAttempted = true ∧
    (gitServiceHandler w svc scmd).trace = spawnList scmd ++ [Event.wgWait, Event.procWait] ∧
    (gitServiceHandler w svc scmd).logs = copyLogs w scmd := by
  simp only [pipesOk, stdinOk, stdoutOk, stderrOk, Bool.and_eq_true, Bool.or_eq_true,
    Bool.not_eq_true', Option.isNone_iff_eq_none] at hp
  rcases hsi : scmd.Stdin with _ | si <;> rcases hso : scmd.Stdout with _ | so <;>
    rcases hse : scmd.Stderr with _ | se <;>
      simp_all [gitServiceHandler, pipeList, spawnList, copyLogs, classifyWait]

lemma gitServiceHandler_startFail (w : World) (svc : Service) (scmd : ServiceCommand)
    (e : GoError) (hp : pipesOk w scmd = true) (hs : w.startErr = some e) :
    (gitServiceHandler w svc scmd).result =
      some (if e.isNotExist then GoError.invalidRepo else e) ∧
    (gitServiceHandler w svc scmd).startAttempted = true ∧
    (gitServiceHandler w svc scmd).logs = [] ∧
    (gitServiceHandler w svc scmd).pipes = pipeList scmd := by
  simp only [pipesOk, stdinOk, stdoutOk, stderrOk, Bool.and_eq_true, Bool.or_eq_true,
    Bool.not_eq_true', Option.isNone_iff_eq_none] at hp
  rcases hsi : scmd.Stdin with _ | si <;> rcases hso : scmd.Stdout with _ | so <;>
    rcases hse : scmd.Stderr with _ | se <;>
      simp_all [gitServiceHandler, pipeList]

lemma gitServiceHandler_stdinPipeFail (w : World) (svc : Service) (scmd : ServiceCommand)
    (e : GoError) (hi : scmd.Stdin.isSome = true) (he : w.stdinPipeErr = some e) :
    (gitServiceHandler w svc scmd).result = some e ∧
    (gitServiceHandler w svc scmd).startAttempted = false := by
  rcases hsi : scmd.Stdin with _ | si <;> simp_all [gitServiceHandler]

lemma gitServiceHandler_stdoutPipeFail (w : World) (svc : Service) (scmd : ServiceCommand)
    (e : GoError) (h1 : stdinOk w scmd = true)
    (ho : scmd.Stdout.isSome = true) (he : w.stdoutPipeErr = some e) :
    (gitServiceHandler w svc scmd).result = some e ∧
    (gitServiceHandler w svc scmd).startAttempted = false := by
  simp only [stdinOk, Bool.or_eq_true, Bool.not_eq_true',
    Option.isNone_iff_eq_none] at h1
  rcases hsi : scmd.Stdin with _ | si <;> rcases hso : scmd.Stdout with _ | so <;>
    simp_all [gitServiceHandler]

lemma gitServiceHandler_stderrPipeFail (w : World) (svc : Service) (scmd : ServiceCommand)
    (e : GoError) (h1 : stdinOk w scmd = true) (h2 : stdoutOk w scmd = true)
    (ho : scmd.Stderr.isSome = true) (he : w.stderrPipeErr = some e) :
    (gitServiceHandler w svc scmd).result = some e ∧
    (gitServiceHandler w svc scmd).startAttempted = false := by
  simp only [stdinOk, stdoutOk, Bool.or_eq_true, Bool.not_eq_true',
    Option.isNone_iff_eq_none] at h1 h2
  rcases hsi : scmd.Stdin with _ | si <;> rcases hso : scmd.Stdout with _ | so <;>
    rcases hse : scmd.Stderr with _ | se <;>
      simp_all [gitServiceHandler]

lemma envLookup_append (a b : List String) (k : String) :
    envLookup (a ++ b) k =
      match envLookup b k with
      | some v => some v
      | none => envLookup a k := by
  induction a with
  | nil => cases h : envLookup b k <;> simp [envLookup, h]
  | cons e rest ih =>
    cases h : envLookup b k with
    | some v => simp [envLookup, ih, h]
    | none => simp [envLookup, ih, h]

lemma mem_pipeList (scmd : ServiceCommand) (k : StreamKind) :
    k ∈ pipeList scmd ↔ streamRequested scmd k = true := by
  cases k <;> cases hsi : scmd.Stdin <;> cases hso : scmd.Stdout <;> cases hse : scmd.Stderr <;>
    simp [pipeList, streamRequested, hsi, hso, hse]

/-! ### Claims -/

/-- Claim C1: for every process-backed service (git-upload-pack,
git-upload-archive, git-receive-pack), the child argument list is built as
the fixed safety flags in fixed order, then the short subcommand name (wire
name with the `git-` prefix stripped), then every caller-supplied extra
argument in order, then the final literal `"."` — extra arguments always
sit before the trailing `"."`. (`"git"` at the head is argv0 set by
`exec.CommandContext`.) -/
theorem C1_child_arg_order (env : List String) (scmd : ServiceCommand) :
    ((mkGitCmd env UploadPackService scmd).args =
      ["git", "-c", "uploadpack.allowFilter=true", "-c", "receive.advertisePushOptions=true",
       "-c", "filter.lfs.required=", "-c", "filter.lfs.smudge=", "-c", "filter.lfs.clean=",
       "upload-pack"] ++ scmd.Args ++ ["."]) ∧
    ((mkGitCmd env UploadArchiveService scmd).args =
      ["git", "-c", "uploadpack.allowFilter=true", "-c", "receive.advertisePushOptions=true",
       "-c", "filter.lfs.required=", "-c", "filter.lfs.smudge=", "-c", "filter.lfs.clean=",
       "upload-archive"] ++ scmd.Args ++ ["."]) ∧
    ((mkGitCmd env ReceivePackService scmd).args =
      ["git", "-c", "uploadpack.allowFilter=true", "-c", "receive.advertisePushOptions=true",
       "-c", "filter.lfs.required=", "-c", "filter.lfs.smudge=", "-c", "filter.lfs.clean=",
       "receive-pack"] ++ scmd.Args ++ ["."]) ∧
    UploadPackService.Name = "upload-pack" ∧
    UploadArchiveService.Name = "upload-archive" ∧
    ReceivePackService.Name = "receive-pack" := by
  refine ⟨?_, ?_, ?_, rfl, rfl, rfl⟩ <;>
    cases h : scmd.Args <;> simp [mkGitCmd, h, safetyFlags] <;> split <;> rfl

/-- Claim C2: a start failure or a wait failure whose error satisfies
`errors.Is(err, os.ErrNotExist)` makes `gitServiceHandler` return the
distinguished `ErrInvalidRepo`, on the start path and on the wait path
alike. -/
theorem C2_notExist_is_invalidRepo (w : World) (svc : Service) (scmd : ServiceCommand)
    (hp : pipesOk w scmd = true) :
    (∀ e, w.startErr = some e → e.isNotExist = true →
      (gitServiceHandler w svc scmd).result = some GoError.invalidRepo) ∧
    (w.startErr = none → ∀ e, w.waitErr = some e → e.isNotExist = true →
      (gitServiceHandler w svc scmd).result = some GoError.invalidRepo) := by
  constructor
  · intro e hs he
    have h := (gitServiceHandler_startFail w svc scmd e hp hs).1
    rw [h, he]
    simp
  · intro hs e hw he
    have h := (gitServiceHandler_run w svc scmd hp hs).1
    rw [h, hw]
    simp [classifyWait, he]

theorem C2_witness :
    (gitServiceHandler { sampleWorld with startErr := some (.notExist "no such file or directory") }
      "git-upload-pack" sampleCmd).result = some GoError.invalidRepo ∧
    (gitServiceHandler { sampleWorld with waitErr := some (.notExist "no such file or directory") }
      "git-upload-pack" sampleCmd).result = some GoError.invalidRepo := by
  constructor
  · exact (C2_notExist_is_invalidRepo
      { sampleWorld with startErr := some (.notExist "no such file or directory") }
      "git-upload-pack" sampleCmd rfl).1 _ rfl rfl
  · exact (C2_notExist_is_invalidRepo
      { sampleWorld with waitErr := some (.notExist "no such file or directory") }
      "git-upload-pack" sampleCmd rfl).2 rfl _ rfl rfl

/-- Claim C3: the dispatch in `Service.Handler` selects the unsupported-service
error (naming exactly the requested service) precisely when the service is
none of the five defined kinds, never attempting a process start in that
case; the three git services are routed to `gitServiceHandler` and the two
LFS services to the external handlers, each with the identical request
descriptor. -/
theorem C3_dispatch (s : Service) (lfsT lfsA : ServiceCommand → Option GoError)
    (w : World) (scmd : ServiceCommand) :
    (s.handlerAction = .unsupported ("unsupported service: " ++ s) ↔
      (s ≠ UploadPackService ∧ s ≠ UploadArchiveService ∧ s ≠ ReceivePackService ∧
       s ≠ LFSTransferService ∧ s ≠ LFSAuthenticateService)) ∧
    ((s ≠ UploadPackService ∧ s ≠ UploadArchiveService ∧ s ≠ ReceivePackService ∧
      s ≠ LFSTransferService ∧ s ≠ LFSAuthenticateService) →
      Service.Handler lfsT lfsA w s scmd =
        { result := some (.other ("unsupported service: " ++ s)), startAttempted := false }) ∧
    ((s = UploadPackService ∨ s = UploadArchiveService ∨ s = ReceivePackService) →
      Service.Handler lfsT lfsA w s scmd =
        { result := (gitServiceHandler w s scmd).result,
          startAttempted := (gitServiceHandler w s scmd).startAttempted }) ∧
    Service.Handler lfsT lfsA w LFSTransferService scmd =
      { result := lfsT scmd, startAttempted := false } ∧
    Service.Handler lfsT lfsA w LFSAuthenticateService scmd =
      { result := lfsA scmd, startAttempted := false } := by
  refine ⟨?_, ?_, ?_, rfl, rfl⟩ <;>
    by_cases h1 : s = UploadPackService <;> by_cases h2 : s = UploadArchiveService <;>
      by_cases h3 : s = ReceivePackService <;> by_cases h4 : s = LFSTransferService <;>
        by_cases h5 : s = LFSAuthenticateService <;>
          simp_all [Service.handlerAction, Service.Handler]

theorem C3_witness :
    Service.Handler (fun _ => none) (fun _ => none) sampleWorld "git-frobnicate" sampleCmd =
      { result := some (.other "unsupported service: git-frobnicate"), startAttempted := false } := by
  exact (C3_dispatch "git-frobnicate" (fun _ => none) (fun _ => none) sampleWorld sampleCmd).2.1
    ⟨by decide, by decide, by decide, by decide, by decide⟩

/-- Claim C4: a run that reaches `cmd.Wait()` and gets a non-zero-exit error
returns `"<exit description>: <captured stderr>"` when captured stderr bytes
exist and the bare exit error otherwise; a run that exits zero returns no
error. -/
theorem C4_exit_classification (w : World) (svc : Service) (scmd : ServiceCommand)
    (hp : pipesOk w scmd = true) (hs : w.startErr = none) :
    (∀ d st, w.waitErr = some (.exit d st) →
      (gitServiceHandler w svc scmd).result =
        if st.length > 0 then some (.other (d ++ ": " ++ st)) else some (.exit d st)) ∧
    (w.waitErr = none → (gitServiceHandler w svc scmd).result = none) := by
  have h := (gitServiceHandler_run w svc scmd hp hs).1
  constructor
  · intro d st hw
    rw [h, hw]
    simp [classifyWait, GoError.isNotExist, GoError.asExitError]
  · intro hw
    rw [h, hw]
    rfl

theorem C4_witness :
    (gitServiceHandler { sampleWorld with waitErr := some (.exit "exit status 128" "fatal: bad object") }
      "git-upload-pack" sampleCmd).result = some (.other "exit status 128: fatal: bad object") ∧
    (gitServiceHandler { sampleWorld with waitErr := some (.exit "exit status 1" "") }
      "git-upload-pack" sampleCmd).result = some (.exit "exit status 1" "") ∧
    (gitServiceHandler sampleWorld "git-upload-pack" sampleCmd).result = none := by
  refine ⟨?_, ?_, ?_⟩
  · rw [(C4_exit_classification
      { sampleWorld with waitErr := some (.exit "exit status 128" "fatal: bad object") }
      "git-upload-pack" sampleCmd rfl rfl).1 "exit status 128" "fatal: bad object" rfl]
    rfl
  · rw [(C4_exit_classification
      { sampleWorld with waitErr := some (.exit "exit status 1" "") }
      "git-upload-pack" sampleCmd rfl rfl).1 "exit status 1" "" rfl]
    rfl
  · exact (C4_exit_classification sampleWorld "git-upload-pack" sampleCmd rfl rfl).2 rfl

/-- Claim C5 (code bug): the claim says every stream-copy error is reported
through the logging channel and never changes the returned value. The second
half holds, but the stderr copy task's guard in the source reads
`if _, erro := io.Copy(scmd.Stderr, stderr); err != nil { log.Errorf(..., erro) }`,
testing the outer `err` variable (nil at that point) instead of the copy
error `erro`, so a failing stderr copy produces no log entry at all. At a
run where only the stderr copy fails, the handler emits no log and returns
nil; at runs where the stdin or stdout copy fails, those errors are
logged and the result is still nil. -/
theorem C5_stderr_copy_error_never_logged :
    (gitServiceHandler { sampleWorld with stderrCopyErr := some (.other "short write") }
      "git-upload-pack" sampleCmd).logs = [] ∧
    (gitServiceHandler { sampleWorld with stderrCopyErr := some (.other "short write") }
      "git-upload-pack" sampleCmd).result = none ∧
    (gitServiceHandler { sampleWorld with stdinCopyErr := some (.other "connection reset") }
      "git-upload-pack" sampleCmd).logs =
      ["gitServiceHandler: failed to copy stdin: connection reset"] ∧
    (gitServiceHandler { sampleWorld with stdoutCopyErr := some (.other "broken pipe") }
      "git-upload-pack" sampleCmd).logs =
      ["gitServiceHandler: failed to copy stdout: broken pipe"] ∧
    (gitServiceHandler { sampleWorld with stdoutCopyErr := some (.other "broken pipe") }
      "git-upload-pack" sampleCmd).result = none :=
  ⟨rfl, rfl, rfl, rfl, rfl⟩

/-- Claim C6: a pipe is opened for a stream exactly when the caller supplied
the corresponding source or sink, and a pipe-creation failure for a
requested stream is returned immediately, with the child process never
started. -/
theorem C6_pipe_setup (w : World) (svc : Service) (scmd : ServiceCommand) :
    (pipesOk w scmd = true →
      ∀ k, k ∈ (gitServiceHandler w svc scmd).pipes ↔ streamRequested scmd k = true) ∧
    (∀ e, scmd.Stdin.isSome = true → w.stdinPipeErr = some e →
      (gitServiceHandler w svc scmd).result = some e ∧
      (gitServiceHandler w svc scmd).startAttempted = false) ∧
    (∀ e, stdinOk w scmd = true → scmd.Stdout.isSome = true → w.stdoutPipeErr = some e →
      (gitServiceHandler w svc scmd).result = some e ∧
      (gitServiceHandler w svc scmd).startAttempted = false) ∧
    (∀ e, stdinOk w scmd = true → stdoutOk w scmd = true →
      scmd.Stderr.isSome = true → w.stderrPipeErr = some e →
      (gitServiceHandler w svc scmd).result = some e ∧
      (gitServiceHandler w svc scmd).startAttempted = false) := by
  refine ⟨?_, ?_, ?_, ?_⟩
  · intro hp k
    cases hs : w.startErr with
    | none => rw [(gitServiceHandler_run w svc scmd hp hs).2.1]; exact mem_pipeList scmd k
    | some e => rw [(gitServiceHandler_startFail w svc scmd e hp hs).2.2.2]; exact mem_pipeList scmd k
  · intro e hi he
    exact gitServiceHandler_stdinPipeFail w svc scmd e hi he
  · intro e h1 ho he
    exact gitServiceHandler_stdoutPipeFail w svc scmd e h1 ho he
  · intro e h1 h2 ho he
    exact gitServiceHandler_stderrPipeFail w svc scmd e h1 h2 ho he

theorem C6_witness :
    ((StreamKind.stdout ∈ (gitServiceHandler sampleWorld "git-upload-pack" sampleCmd).pipes) ↔
      streamRequested sampleCmd .stdout = true) ∧
    (gitServiceHandler { sampleWorld with stdoutPipeErr := some (.other "too many open files") }
      "git-upload-pack" sampleCmd).result = some (.other "too many open files") ∧
    (gitServiceHandler { sampleWorld with stdoutPipeErr := some (.other "too many open files") }
      "git-upload-pack" sampleCmd).startAttempted = false := by
  refine ⟨?_, ?_, ?_⟩
  · exact (C6_pipe_setup sampleWorld "git-upload-pack" sampleCmd).1 rfl .stdout
  · exact ((C6_pipe_setup { sampleWorld with stdoutPipeErr := some (.other "too many open files") }
      "git-upload-pack" sampleCmd).2.2.1 _ rfl rfl rfl).1
  · exact ((C6_pipe_setup { sampleWorld with stdoutPipeErr := some (.other "too many open files") }
      "git-upload-pack" sampleCmd).2.2.1 _ rfl rfl rfl).2

/-- Claim C7: the child environment is the ambient environment with the
request's entries appended after it; under last-wins environment lookup a
supplied entry shadows any ambient entry with the same key, and keys absent
from the supplied entries keep their ambient binding. -/
theorem C7_env_merge (amb : List String) (svc : Service) (scmd : ServiceCommand) :
    (mkGitCmd amb svc scmd).env = amb ++ scmd.Env ∧
    ∀ k, envLookup (mkGitCmd amb svc scmd).env k =
      match envLookup scmd.Env k with
      | some v => some v
      | none => envLookup amb k := by
  have henv : (mkGitCmd amb svc scmd).env = amb ++ scmd.Env := by
    cases h : scmd.Env <;> simp [mkGitCmd, h]
  refine ⟨henv, fun k => ?_⟩
  rw [henv, envLookup_append]

/-- Claim C8: in every started run the stdout and stderr sinks each get
their own copy task registered in the WaitGroup, the `wg.Wait()` join
strictly precedes the `cmd.Wait()` process wait, and the stdin copy task is
spawned detached (not joined) and closes the process-stdin pipe when its
copy finishes. -/
theorem C8_stream_concurrency (w : World) (svc : Service) (scmd : ServiceCommand)
    (hp : pipesOk w scmd = true) (hs : w.startErr = none) :
    (gitServiceHandler w svc scmd).trace =
      (if scmd.Stdin.isSome then [Event.spawn .stdin false true] else []) ++
      (if scmd.Stdout.isSome then [Event.spawn .stdout true false] else []) ++
      (if scmd.Stderr.isSome then [Event.spawn .stderr true false] else []) ++
      [Event.wgWait, Event.procWait] := by
  rw [(gitServiceHandler_run w svc scmd hp hs).2.2.2.1]
  simp [spawnList]

theorem C8_witness :
    (gitServiceHandler sampleWorld "git-upload-pack" sampleCmd).trace =
      [Event.spawn .stdin false true, Event.spawn .stdout true false,
       Event.spawn .stderr true false, Event.wgWait, Event.procWait] := by
  rw [C8_stream_concurrency sampleWorld "git-upload-pack" sampleCmd rfl rfl]
  rfl

/-- Claim C9: `UploadPack`, `UploadArchive` and `ReceivePack` are the same
call to `gitServiceHandler` on the corresponding service, and agree with
`Service.Handler` invoked on that service kind. -/
theorem C9_wrappers (lfsT lfsA : ServiceCommand → Option GoError)
    (w : World) (scmd : ServiceCommand) :
    UploadPack w scmd = gitServiceHandler w UploadPackService scmd ∧
    UploadArchive w scmd = gitServiceHandler w UploadArchiveService scmd ∧
    ReceivePack w scmd = gitServiceHandler w ReceivePackService scmd ∧
    (Service.Handler lfsT lfsA w UploadPackService scmd).result = (UploadPack w scmd).result ∧
    (Service.Handler lfsT lfsA w UploadArchiveService scmd).result = (UploadArchive w scmd).result ∧
    (Service.Handler lfsT lfsA w ReceivePackService scmd).result = (ReceivePack w scmd).result :=
  ⟨rfl, rfl, rfl, rfl, rfl, rfl⟩

/-- Claim C10: on every execution path (pipe failure, start failure, wait
failure, success) the request descriptor `scmd` is returned unchanged: the
handler never writes to any of its fields; only the freshly built child
command configuration is derived from it. -/
theorem C10_descriptor_frame (w : World) (svc : Service) (scmd : ServiceCommand) :
    (gitServiceHandler w svc scmd).scmdAfter = scmd := by
  unfold gitServiceHandler
  repeat first | rfl | split

end SoftServe
